import Mathlib

/-!
# Verification of the ava-agent gateway core

Shallow embedding of the gateway's security-sensitive core: the constant-time
secret comparator, the layered authorization gate (public / identity /
shared-secret tiers), the diagnostic-route gating, and the process supervisor
(ensure-running, restart, find-only).  The route implementations themselves
(`src/routes/cdp.ts`, `src/auth/middleware.ts`, `src/gateway/process.ts`,
`src/routes/debug.ts`, `src/index.ts`) are not present in the repository —
only their tests are — so the definitions below are modelled from the design
document, and are kept consistent with the observable behaviour asserted by
the repository's test suites (`cdp.test.ts`, the protection-matrix tests, the
debug-route tests and the admin-api tests).
-/

namespace AvaAgent

/-! ## Substring search (used for command-signature matching and for
reasoning about serialized response bodies) -/

/-- `leadsOf n h` is true when list `n` occurs at the very front of `h`. -/
def leadsOf : List Char → List Char → Bool
  | [], _ => true
  | _ :: _, [] => false
  | a :: as, b :: bs => a == b && leadsOf as bs

/-- `occursChars n h`: the list `n` occurs contiguously somewhere in `h`. -/
def occursChars (n : List Char) : List Char → Bool
  | [] => leadsOf n []
  | b :: bs => leadsOf n (b :: bs) || occursChars n bs

/-- String-level contiguous-substring test. -/
def occursIn (needle hay : String) : Bool :=
  occursChars needle.data hay.data

/-! ## Secret Comparator

Modelled from the spec: the implementation (`src/routes/cdp.ts`, absent from
the repository) performs a timing-safe comparison — an initial length check
may short-circuit, after which the contents are scanned in full with a
branch-free accumulator (XOR of the byte pair OR-ed into the accumulator),
and the comparator fails closed when the configured secret is empty. -/

/-- One full branch-free scan over a pair of character lists.  Returns the
accumulated difference (the per-character XORs summed; `0` exactly when the
lists are equal) together with the number of per-character comparison steps
performed.  The step count is the timing model of the content comparison. -/
def ctScan : List Char → List Char → Nat × Nat
  | [], [] => (0, 0)
  | [], _ :: _ => (1, 0)
  | _ :: _, [] => (1, 0)
  | a :: as, b :: bs =>
    let r := ctScan as bs
    ((a.toNat ^^^ b.toNat) + r.1, r.2 + 1)

/-- Modelled from the spec: the Secret Comparator of `src/routes/cdp.ts`
(file absent from the repository).  Fails closed on an empty configured
secret, short-circuits on a length mismatch, and otherwise decides equality
from the branch-free scan `ctScan`. -/
def secretEquals (presented secret : String) : Bool :=
  if secret.isEmpty then false
  else if presented.length != secret.length then false
  else (ctScan presented.data secret.data).1 == 0

/-! ## Authorization outcomes and the shared-secret (CDP) gate -/

/-- The outcome of one tier check (spec §3, Authorization Decision). -/
inductive Outcome where
  | allow
  | rejectUnauthenticated
  | rejectMisconfigured
  deriving DecidableEq, Repr

/-- HTTP status observed for a shared-secret tier outcome (spec §6). -/
def Outcome.status : Outcome → Nat
  | .allow => 200
  | .rejectUnauthenticated => 401
  | .rejectMisconfigured => 503

/-- Environment-style configuration visible to the worker.  `none` models an
unset variable; bindings (`BROWSER`) are modelled by presence booleans. -/
structure WorkerEnv where
  CDP_SECRET : Option String := none
  BROWSER : Bool := false
  DEV_MODE : Option String := none
  E2E_TEST_MODE : Option String := none
  DEBUG_ROUTES : Option String := none
  ANTHROPIC_API_KEY : Option String := none
  OPENAI_API_KEY : Option String := none
  MOLTBOT_GATEWAY_TOKEN : Option String := none
  deriving DecidableEq, Repr

/-- Modelled from the spec: the shared-secret tier check of the remote
debugging bridge (`src/routes/cdp.ts`, absent from the repository).  An
unset — or, by environment-string falsiness, empty — configured secret is a
misconfiguration (503, per `cdp.test.ts`); otherwise the presented `secret`
query parameter must compare equal under the timing-safe comparator. -/
def cdpAuthDecision (cfgSecret : Option String) (presented : Option String) : Outcome :=
  match cfgSecret with
  | none => .rejectMisconfigured
  | some s =>
    if s.isEmpty then .rejectMisconfigured
    else
      match presented with
      | none => .rejectUnauthenticated
      | some p => if secretEquals p s then .allow else .rejectUnauthenticated

/-- Full result of a CDP discovery route (`/cdp/json/*`). -/
inductive CdpHttpResult where
  | notConfigured503
  | unauthorized401
  | browserMissing503
  | ok200
  deriving DecidableEq, Repr

/-- Modelled from the spec: a CDP discovery endpoint handler
(`src/routes/cdp.ts`, absent from the repository): shared-secret gate first,
then the browser-rendering binding check, per `cdp.test.ts`. -/
def cdpDiscovery (env : WorkerEnv) (presented : Option String) : CdpHttpResult :=
  match cdpAuthDecision env.CDP_SECRET presented with
  | .rejectMisconfigured => .notConfigured503
  | .rejectUnauthenticated => .unauthorized401
  | .allow => if env.BROWSER then .ok200 else .browserMissing503

/-! ## CDP WebSocket endpoints (`GET /cdp`, `GET /cdp/devtools/browser/:id`) -/

/-- Result of one of the two CDP WebSocket endpoints. -/
inductive CdpWsResult where
  | infoMethods200 (methods : List String)
  | upgradeRequired200
  | wsUpgrade (outcome : Outcome)
  deriving DecidableEq, Repr

/-- HTTP status of a CDP WebSocket endpoint result. -/
def CdpWsResult.status : CdpWsResult → Nat
  | .infoMethods200 _ => 200
  | .upgradeRequired200 => 200
  | .wsUpgrade o => o.status

/-- The CDP methods advertised by the informational body of `GET /cdp`
(the test suite checks for `Browser.getVersion` and `Page.navigate`). -/
def supportedCdpMethods : List String :=
  ["Browser.getVersion", "Target.getTargets", "Target.createTarget",
   "Page.navigate", "Page.captureScreenshot", "Runtime.evaluate"]

/-- Modelled from the spec: `GET /cdp` (`src/routes/cdp.ts`, absent from the
repository).  The Upgrade header is checked first; without it the handler
answers with the informational method list and performs no auth check
(`cdp.test.ts`).  With it, the shared-secret gate applies. -/
def cdpWsRoot (env : WorkerEnv) (upgrade : Bool) (presented : Option String) :
    CdpWsResult :=
  if upgrade then .wsUpgrade (cdpAuthDecision env.CDP_SECRET presented)
  else .infoMethods200 supportedCdpMethods

/-- Modelled from the spec: `GET /cdp/devtools/browser/:id`
(`src/routes/cdp.ts`, absent from the repository).  Without an Upgrade header
it answers a JSON upgrade-required notice, with no auth check. -/
def cdpWsBrowserId (env : WorkerEnv) (_id : String) (upgrade : Bool)
    (presented : Option String) : CdpWsResult :=
  if upgrade then .wsUpgrade (cdpAuthDecision env.CDP_SECRET presented)
  else .upgradeRequired200

/-! ## Identity tier (Cloudflare Access middleware) -/

/-- Identity claims extracted from a verified assertion (spec §4.2). -/
structure Claims where
  email : String
  serviceToken : Option String := none
  deriving DecidableEq, Repr

/-- The synthetic local identity used by the development bypass. -/
def devClaims : Claims := { email := "dev@localhost" }

/-- The synthetic test identity used by the end-to-end-test bypass. -/
def e2eClaims : Claims := { email := "e2e-test@localhost" }

/-- `isDevMode`: the development bypass holds exactly when the `DEV_MODE`
variable is the string `"true"` (asserted by the protection-matrix tests). -/
def isDevMode (env : WorkerEnv) : Bool := env.DEV_MODE == some "true"

/-- `isE2ETestMode`: the end-to-end-test bypass holds exactly when the
`E2E_TEST_MODE` variable is the string `"true"`. -/
def isE2ETestMode (env : WorkerEnv) : Bool := env.E2E_TEST_MODE == some "true"

/-- Outcome of the identity tier. -/
inductive IdentityDecision where
  | allow (c : Claims)
  | reject401
  deriving DecidableEq, Repr

/-- Modelled from the spec: the identity-tier check of
`src/auth/middleware.ts` (absent from the repository).  Check order per spec
§4.3: development bypass, then end-to-end-test bypass, then signed-assertion
verification; the Token Verifier is passed in as `verify` and a missing token
rejects.  -/
def identityGate (env : WorkerEnv) (verify : String → Option Claims)
    (token : Option String) : IdentityDecision :=
  if isDevMode env then .allow devClaims
  else if isE2ETestMode env then .allow e2eClaims
  else
    match token with
    | none => .reject401
    | some t =>
      match verify t with
      | some c => .allow c
      | none => .reject401

/-! ## Diagnostic (debug) route gating -/

/-- Observable result of a request to a diagnostic route. -/
inductive DebugOutcome where
  | notFound404
  | unauthorized401
  | ok200 (c : Claims)
  deriving DecidableEq, Repr

/-- Modelled from the spec: the diagnostic-route pipeline assembled in
`src/index.ts` (absent from the repository).  Per spec §4.3, absence of the
diagnostics-enabled flag yields not-found before any credential is consulted,
so as not to reveal whether diagnostics exist; otherwise the identity tier
applies. -/
def debugPipeline (env : WorkerEnv) (verify : String → Option Claims)
    (token : Option String) : DebugOutcome :=
  if env.DEBUG_ROUTES != some "true" then .notFound404
  else
    match identityGate env verify token with
    | .allow c => .ok200 c
    | .reject401 => .unauthorized401

/-! ## `GET /debug/env` response -/

/-- Environment-string truthiness: set and non-empty. -/
def presentStr : Option String → Bool
  | none => false
  | some s => !s.isEmpty

/-- The sanitized body of `GET /debug/env`: boolean presence flags for the
secrets, echoes of the non-secret flags. -/
structure DebugEnvBody where
  has_anthropic_key : Bool
  has_openai_key : Bool
  has_gateway_token : Bool
  dev_mode : String
  debug_routes : String
  deriving DecidableEq, Repr

/-- Modelled from the spec: the `GET /debug/env` handler of
`src/routes/debug.ts` (absent from the repository).  It reports presence
booleans for the configured secrets and echoes the non-secret flags
(`debug.test.ts`). -/
def debugEnvBody (env : WorkerEnv) : DebugEnvBody :=
  { has_anthropic_key := presentStr env.ANTHROPIC_API_KEY
    has_openai_key := presentStr env.OPENAI_API_KEY
    has_gateway_token := presentStr env.MOLTBOT_GATEWAY_TOKEN
    dev_mode := env.DEV_MODE.getD ""
    debug_routes := env.DEBUG_ROUTES.getD "" }

/-- JSON rendering of a boolean. -/
def boolJson : Bool → String
  | true => "true"
  | false => "false"

/-- JSON serialization of the `GET /debug/env` body. -/
def serializeDebugEnv (b : DebugEnvBody) : String :=
  "\x7b\"has_anthropic_key\":" ++ boolJson b.has_anthropic_key ++
  ",\"has_openai_key\":" ++ boolJson b.has_openai_key ++
  ",\"has_gateway_token\":" ++ boolJson b.has_gateway_token ++
  ",\"dev_mode\":\"" ++ b.dev_mode ++
  "\",\"debug_routes\":\"" ++ b.debug_routes ++ "\"\x7d"

/-! ## Process Supervisor

Modelled from the spec: `src/gateway/process.ts` (ensure / restart / find) is
absent from the repository; the state machine below follows spec §4.4 and the
admin-api and debug-route tests.  The sandbox process table is a list of
records; port readiness is an oracle `portOk k` giving reachability at the
`k`-th poll. -/

/-- Lifecycle status of a sandbox process record (spec §3). -/
inductive PStatus where
  | starting
  | running
  | completed
  | failed
  deriving DecidableEq, Repr

/-- One observed process record in the sandbox's process table. -/
structure ProcessRecord where
  pid : Nat
  command : String
  status : PStatus
  deriving DecidableEq, Repr

/-- The agent-process command signature (the gateway start command line of
the tests contains this text). -/
def agentSig : String := "openclaw gateway"

/-- A record matches the agent-process signature when its command line
contains the signature. -/
def matchesAgent (r : ProcessRecord) : Bool := occursIn agentSig r.command

/-- A record is alive: status `starting` or `running`. -/
def isActive (r : ProcessRecord) : Bool :=
  r.status == .starting || r.status == .running

/-- An alive record matching the agent signature. -/
def activeAgent (r : ProcessRecord) : Bool := matchesAgent r && isActive r

/-- Number of alive agent-signature records in a table (the spec invariant
bounds this by one). -/
def activeCount (t : List ProcessRecord) : Nat :=
  (t.filter activeAgent).length

/-- Bounded poll: the port becomes reachable at some poll `k ≤ timeout`. -/
def portUp (portOk : Nat → Bool) (timeout : Nat) : Bool :=
  (List.range (timeout + 1)).any portOk

/-- Command line used when the supervisor starts a fresh agent process. -/
def agentStartCommand : String := "openclaw gateway start"

/-- Outcome of an Ensure-running call. -/
inductive EnsureOutcome where
  | ready (r : ProcessRecord)
  | timedOut
  deriving DecidableEq, Repr

/-- Result of an Ensure-running call: outcome, number of start commands
issued, and the resulting process table. -/
structure EnsureResult where
  outcome : EnsureOutcome
  startsIssued : Nat
  table : List ProcessRecord
  deriving Repr

/-- Modelled from the spec: `ensureMoltbotGateway` of `src/gateway/process.ts`
(absent from the repository), sequential semantics of spec §4.4 steps 1–5:
query for an alive matching record; a `running` record with its port already
reachable returns immediately; an alive record otherwise waits for the port
up to the bounded timeout; with no alive record a single start command is
issued and the fresh record is waited for. -/
def ensureRunning (t : List ProcessRecord) (portOk : Nat → Bool)
    (timeout : Nat) (freshPid : Nat) : EnsureResult :=
  match t.find? activeAgent with
  | some r =>
    if r.status == .running && portOk 0 then
      { outcome := .ready r, startsIssued := 0, table := t }
    else if portUp portOk timeout then
      { outcome := .ready r, startsIssued := 0, table := t }
    else
      { outcome := .timedOut, startsIssued := 0, table := t }
  | none =>
    if portUp portOk timeout then
      let fresh : ProcessRecord :=
        { pid := freshPid, command := agentStartCommand, status := .running }
      { outcome := .ready fresh, startsIssued := 1, table := t ++ [fresh] }
    else
      let fresh : ProcessRecord :=
        { pid := freshPid, command := agentStartCommand, status := .starting }
      { outcome := .timedOut, startsIssued := 1, table := t ++ [fresh] }

/-- Mark every record with the given identifier as terminated (`failed`),
modelling an issued kill that was awaited. -/
def killIn (t : List ProcessRecord) (id : Nat) : List ProcessRecord :=
  t.map fun r => if r.pid == id then { r with status := .failed } else r

/-- Result of a Restart call: identifier killed (when a matching record was
found), number of start commands issued, resulting process table, and the
record the caller ends up with. -/
structure RestartResult where
  killedId : Option Nat
  startsIssued : Nat
  table : List ProcessRecord
  returned : ProcessRecord
  deriving Repr

/-- Modelled from the spec: the restart flow of
`POST /api/admin/gateway/restart` (`src/routes/api.ts` and
`src/gateway/process.ts`, absent from the repository).  Spec §4.4: locate any
matching record regardless of status; if present, kill it and await its
termination; then start fresh — guarded by the same re-verification race
check as the start path, so an alive matching record found after the kill is
folded back into "found" instead of starting a duplicate. -/
def restart (t : List ProcessRecord) (freshPid : Nat) : RestartResult :=
  let found := t.find? matchesAgent
  let t1 :=
    match found with
    | some r => killIn t r.pid
    | none => t
  match t1.find? activeAgent with
  | some r =>
    { killedId := found.map (·.pid), startsIssued := 0, table := t1, returned := r }
  | none =>
    let fresh : ProcessRecord :=
      { pid := freshPid, command := agentStartCommand, status := .running }
    { killedId := found.map (·.pid), startsIssued := 1, table := t1 ++ [fresh],
      returned := fresh }

/-! ## Find-only lookup and `GET /debug/logs` -/

/-- Modelled from the spec: `findExistingMoltbotProcess` of
`src/gateway/process.ts` (absent from the repository).  Read-only variant of
ensure steps 1–2 over a fallible process-table query: any lookup error is
swallowed and reported as "no process found" (spec §4.4; asserted by
`debug.test.ts`). -/
def findExistingMoltbotProcess (q : Except String (List ProcessRecord)) :
    Option ProcessRecord :=
  match q with
  | .error _ => none
  | .ok t => t.find? activeAgent

/-- Response of `GET /debug/logs` without an `id` parameter; both variants
carry HTTP status 200. -/
inductive LogsResponse where
  | okLogs (pid : Nat)
  | noProcess
  deriving DecidableEq, Repr

/-- HTTP status of a `GET /debug/logs` default response. -/
def LogsResponse.status : LogsResponse → Nat
  | .okLogs _ => 200
  | .noProcess => 200

/-- Modelled from the spec: the default path of `GET /debug/logs`
(`src/routes/debug.ts`, absent from the repository): the find-only lookup, a
missing process reported as `no_process` with status 200. -/
def debugLogsDefault (q : Except String (List ProcessRecord)) : LogsResponse :=
  match findExistingMoltbotProcess q with
  | some r => .okLogs r.pid
  | none => .noProcess

/-! ## Helper lemmas -/

theorem string_eq_of_data {p s : String} (h : p.data = s.data) : p = s := by
  cases p; cases s; cases h; rfl

theorem char_toNat_inj {a b : Char} (h : a.toNat = b.toNat) : a = b :=
  Char.eq_of_val_eq (UInt32.eq_of_val_eq (Fin.ext h))

/-- The accumulated difference of the branch-free scan is zero exactly when
the two lists are equal. -/
theorem ctScan_fst_eq_zero : ∀ a b : List Char, (ctScan a b).1 = 0 ↔ a = b
  | [], [] => by simp [ctScan]
  | [], _ :: _ => by simp [ctScan]
  | _ :: _, [] => by simp [ctScan]
  | a :: as, b :: bs => by
    simp only [ctScan, Nat.add_eq_zero, List.cons.injEq]
    rw [ctScan_fst_eq_zero as bs, Nat.xor_eq_zero]
    constructor
    · rintro ⟨h1, h2⟩
      exact ⟨char_toNat_inj h1, h2⟩
    · rintro ⟨rfl, rfl⟩
      exact ⟨rfl, rfl⟩

/-- The branch-free scan of two lists of equal length performs exactly one
comparison step per position. -/
theorem ctScan_snd_of_length : ∀ a b : List Char, a.length = b.length →
    (ctScan a b).2 = a.length
  | [], [] => fun _ => rfl
  | [], _ :: _ => by simp
  | _ :: _, [] => by simp
  | _ :: as, _ :: bs => fun h => by
    simp only [ctScan, List.length_cons]
    rw [ctScan_snd_of_length as bs (by simpa using h)]

/-- Functional correctness of the Secret Comparator: `equal` exactly for a
non-empty configured secret presented verbatim (fails closed on an empty
secret). -/
theorem secretEquals_iff (p s : String) :
    secretEquals p s = true ↔ (s.isEmpty = false ∧ p = s) := by
  unfold secretEquals
  cases hse : s.isEmpty with
  | true =>
    simp only [if_pos rfl]
    simp
  | false =>
    simp only [Bool.false_eq_true, if_false, true_and]
    by_cases hl : p.length = s.length
    · simp only [bne_iff_ne, ne_eq, hl, not_true_eq_false, if_false, beq_iff_eq,
        ctScan_fst_eq_zero]
      exact ⟨fun h => string_eq_of_data h, fun h => by rw [h]⟩
    · have hne : p ≠ s := fun h => hl (by rw [h])
      simp [bne_iff_ne, hl, hne]

/-- A terminated record is not alive. -/
theorem activeAgent_of_failed (r : ProcessRecord) (h : r.status = .failed) :
    activeAgent r = false := by
  simp [activeAgent, isActive, h]

theorem activeCount_cons (r : ProcessRecord) (t : List ProcessRecord) :
    activeCount (r :: t) =
      (if activeAgent r then 1 else 0) + activeCount t := by
  by_cases h : activeAgent r
  · simp [activeCount, List.filter_cons, h, Nat.add_comm]
  · simp [activeCount, List.filter_cons, h]

theorem activeCount_append (t u : List ProcessRecord) :
    activeCount (t ++ u) = activeCount t + activeCount u := by
  simp [activeCount, List.filter_append]

/-- Killing a process never increases the number of alive agent records. -/
theorem activeCount_killIn_le (t : List ProcessRecord) (id : Nat) :
    activeCount (killIn t id) ≤ activeCount t := by
  induction t with
  | nil => exact Nat.le_refl 0
  | cons r rs ih =>
    have hk : killIn (r :: rs) id =
        (if r.pid == id then { r with status := .failed } else r) ::
          killIn rs id := rfl
    rw [hk, activeCount_cons, activeCount_cons]
    by_cases h : (r.pid == id) = true
    · rw [if_pos h, activeAgent_of_failed _ rfl]
      have : ((if (false : Bool) then 1 else 0) : Nat) = 0 := rfl
      rw [this]
      omega
    · rw [if_neg h]
      exact Nat.add_le_add_left ih _

/-- An exhausted alive-record query means no record is alive. -/
theorem activeCount_of_find?_none (t : List ProcessRecord)
    (h : t.find? activeAgent = none) : activeCount t = 0 := by
  have hall := List.find?_eq_none.mp h
  have : t.filter activeAgent = [] := by
    rw [List.filter_eq_nil_iff]
    exact hall
  simp [activeCount, this]

/-- No matching record at all implies no alive matching record. -/
theorem find?_active_none_of_matches_none (t : List ProcessRecord)
    (h : t.find? matchesAgent = none) : t.find? activeAgent = none := by
  rw [List.find?_eq_none] at h ⊢
  intro x hx hax
  exact h x hx (Bool.and_elim_left hax)

/-- Records of a kill-updated table carrying the killed identifier are
terminated. -/
theorem killIn_failed (t : List ProcessRecord) (id : Nat)
    (rec : ProcessRecord) (hmem : rec ∈ killIn t id) (hpid : rec.pid = id) :
    rec.status = .failed := by
  obtain ⟨x, hx, heq⟩ := List.mem_map.mp hmem
  by_cases h : (x.pid == id) = true
  · rw [if_pos h] at heq
    rw [← heq]
  · rw [if_neg h] at heq
    subst heq
    exact absurd (beq_iff_eq.mpr hpid) h

/-- The supervisor's fresh start command matches the agent signature. -/
theorem matchesAgent_startCommand (p : Nat) (st : PStatus) :
    matchesAgent { pid := p, command := agentStartCommand, status := st }
      = true := by
  simp only [matchesAgent]
  decide

theorem activeAgent_freshRunning (p : Nat) :
    activeAgent { pid := p, command := agentStartCommand, status := .running }
      = true := by
  simp [activeAgent, isActive, matchesAgent_startCommand]

/-- One Restart call leaves at most one alive agent record, given the spec
invariant on the incoming table. -/
theorem restart_activeCount_le_one (t : List ProcessRecord) (p : Nat)
    (h : activeCount t ≤ 1) : activeCount (restart t p).table ≤ 1 := by
  unfold restart
  cases hf : t.find? matchesAgent with
  | none =>
    have ha : t.find? activeAgent = none :=
      find?_active_none_of_matches_none t hf
    simp only [hf, ha]
    rw [activeCount_append, activeCount_of_find?_none t ha, activeCount_cons,
      activeAgent_freshRunning]
    simp [activeCount]
  | some r =>
    have hle := activeCount_killIn_le t r.pid
    cases ha : (killIn t r.pid).find? activeAgent with
    | some r' =>
      simp only [hf, ha]
      exact le_trans hle h
    | none =>
      simp only [hf, ha]
      rw [activeCount_append, activeCount_of_find?_none _ ha,
        activeCount_cons, activeAgent_freshRunning]
      simp [activeCount]

end AvaAgent

namespace AvaAgent

/-! ## Claim theorems -/

/-- C1: for every request to a shared-secret (`/cdp`) route, an unset — or
empty — configured secret always yields reject-misconfigured (503) and never
admit; with a non-empty configured secret, an absent or unequal presented
`secret` query parameter yields reject-unauthenticated (401), and an equal
one yields admit (200). -/
theorem cdp_shared_secret_gate_spec (cfg presented : Option String) :
    ((cfg = none ∨ cfg = some "") →
      cdpAuthDecision cfg presented = .rejectMisconfigured ∧
        cdpAuthDecision cfg presented ≠ .allow) ∧
    (∀ s : String, cfg = some s → s ≠ "" →
      (presented = none →
        cdpAuthDecision cfg presented = .rejectUnauthenticated) ∧
      (∀ v : String, presented = some v → v ≠ s →
        cdpAuthDecision cfg presented = .rejectUnauthenticated) ∧
      (presented = some s → cdpAuthDecision cfg presented = .allow)) := by
  constructor
  · rintro (rfl | rfl)
    · have h : cdpAuthDecision none presented = .rejectMisconfigured := rfl
      exact ⟨h, by rw [h]; decide⟩
    · have h : cdpAuthDecision (some "") presented = .rejectMisconfigured := rfl
      exact ⟨h, by rw [h]; decide⟩
  · rintro s rfl hs
    have hse : s.isEmpty = false := by
      cases h : s.isEmpty
      · rfl
      · exact absurd ((String.isEmpty_iff s).mp h) hs
    refine ⟨?_, ?_, ?_⟩
    · rintro rfl
      simp [cdpAuthDecision, hse]
    · rintro v rfl hv
      have : secretEquals v s = false := by
        cases h : secretEquals v s
        · rfl
        · exact absurd ((secretEquals_iff v s).mp h).2 hv
      simp [cdpAuthDecision, hse, this]
    · rintro rfl
      have : secretEquals s s = true := (secretEquals_iff s s).mpr ⟨hse, rfl⟩
      simp [cdpAuthDecision, hse, this]

theorem cdp_shared_secret_gate_spec_witness :
    cdpAuthDecision none (some "abc123") = .rejectMisconfigured ∧
    cdpAuthDecision (some "") (some "") ≠ .allow ∧
    cdpAuthDecision (some "abc123") none = .rejectUnauthenticated ∧
    cdpAuthDecision (some "abc123") (some "abc124") = .rejectUnauthenticated ∧
    cdpAuthDecision (some "abc123") (some "abc123") = .allow :=
  ⟨((cdp_shared_secret_gate_spec none (some "abc123")).1 (Or.inl rfl)).1,
   ((cdp_shared_secret_gate_spec (some "") (some "")).1 (Or.inr rfl)).2,
   ((cdp_shared_secret_gate_spec (some "abc123") none).2 "abc123" rfl
      (by decide)).1 rfl,
   ((cdp_shared_secret_gate_spec (some "abc123") (some "abc124")).2 "abc123"
      rfl (by decide)).2.1 "abc124" rfl (by decide),
   ((cdp_shared_secret_gate_spec (some "abc123") (some "abc123")).2 "abc123"
      rfl (by decide)).2.2 rfl⟩

/-- C2: the shared-secret tier decision is independent of the bypass flags —
two configurations differing only in `DEV_MODE` and `E2E_TEST_MODE` give
every CDP request the identical result, so enabling a bypass flag never
admits a request that would otherwise be rejected. -/
theorem cdp_independent_of_bypass_flags (env : WorkerEnv)
    (dm e2e : Option String) (presented : Option String) :
    cdpDiscovery { env with DEV_MODE := dm, E2E_TEST_MODE := e2e } presented =
      cdpDiscovery env presented ∧
    cdpAuthDecision
        ({ env with DEV_MODE := dm, E2E_TEST_MODE := e2e } : WorkerEnv).CDP_SECRET
        presented =
      cdpAuthDecision env.CDP_SECRET presented :=
  ⟨rfl, rfl⟩

/-- C8: the running time of the Secret Comparator's content comparison is
independent of the position of the first differing byte — after a length
match, the branch-free scan performs exactly one step per character of the
secret, a count identical across all equal-length inputs. -/
theorem comparator_constant_time (p s q r : String)
    (hps : p.length = s.length) (hqr : q.length = r.length)
    (hlen : s.length = r.length) :
    (ctScan p.data s.data).2 = s.length ∧
    (ctScan p.data s.data).2 = (ctScan q.data r.data).2 := by
  have h1 : (ctScan p.data s.data).2 = p.length := ctScan_snd_of_length _ _ hps
  have h2 : (ctScan q.data r.data).2 = q.length := ctScan_snd_of_length _ _ hqr
  constructor
  · rw [h1, hps]
  · rw [h1, h2, hps, hqr, hlen]

theorem comparator_constant_time_witness :
    (ctScan "ab".data "xy".data).2 = ("xy" : String).length ∧
    (ctScan "ab".data "xy".data).2 = (ctScan "zz".data "zw".data).2 :=
  comparator_constant_time "ab" "xy" "zz" "zw" rfl rfl rfl

/-- C9: the CDP WebSocket endpoints `GET /cdp` and
`GET /cdp/devtools/browser/:id` answer a request without an Upgrade header
with an informational 200 body, performing no shared-secret check — the
result is the same for every configuration (secret configured or not) and
every presented value. -/
theorem cdp_ws_no_upgrade_no_auth (env : WorkerEnv) (id : String)
    (presented : Option String) :
    cdpWsRoot env false presented = .infoMethods200 supportedCdpMethods ∧
    (cdpWsRoot env false presented).status = 200 ∧
    cdpWsBrowserId env id false presented = .upgradeRequired200 ∧
    (cdpWsBrowserId env id false presented).status = 200 :=
  ⟨rfl, rfl, rfl, rfl⟩

/-- C4: identity-tier check order — the development bypass admits with the
synthetic local identity without consulting any token; otherwise the
end-to-end-test bypass admits with the synthetic test identity; otherwise the
request is admitted with the extracted claims exactly when the presented
assertion verifies, and rejected as unauthenticated otherwise, including when
no token is presented. -/
theorem identity_tier_check_order (env : WorkerEnv)
    (verify : String → Option Claims) (token : Option String) :
    (isDevMode env = true →
      identityGate env verify token = .allow devClaims) ∧
    (isDevMode env = false → isE2ETestMode env = true →
      identityGate env verify token = .allow e2eClaims) ∧
    (isDevMode env = false → isE2ETestMode env = false →
      (token = none → identityGate env verify token = .reject401) ∧
      (∀ tk : String, token = some tk →
        (∀ c : Claims, verify tk = some c →
          identityGate env verify token = .allow c) ∧
        (verify tk = none → identityGate env verify token = .reject401))) := by
  refine ⟨?_, ?_, ?_⟩
  · intro hd
    simp [identityGate, hd]
  · intro hd he
    simp [identityGate, hd, he]
  · intro hd he
    constructor
    · rintro rfl
      simp [identityGate, hd, he]
    · rintro tk rfl
      constructor
      · intro c hc
        simp [identityGate, hd, he, hc]
      · intro hc
        simp [identityGate, hd, he, hc]

theorem identity_tier_check_order_witness :
    identityGate { DEV_MODE := some "true" } (fun _ => none) none
        = .allow devClaims ∧
    identityGate { E2E_TEST_MODE := some "true" } (fun _ => none) none
        = .allow e2eClaims ∧
    identityGate {} (fun _ => none) none = .reject401 ∧
    identityGate {} (fun _ => some { email := "ops@example.com" })
        (some "jwt") = .allow { email := "ops@example.com" } ∧
    identityGate {} (fun _ => none) (some "jwt") = .reject401 :=
  ⟨(identity_tier_check_order { DEV_MODE := some "true" } (fun _ => none)
      none).1 rfl,
   ((identity_tier_check_order { E2E_TEST_MODE := some "true" }
      (fun _ => none) none).2.1 rfl rfl),
   ((identity_tier_check_order {} (fun _ => none) none).2.2 rfl rfl).1 rfl,
   (((identity_tier_check_order {} (fun _ => some { email := "ops@example.com" })
      (some "jwt")).2.2 rfl rfl).2 "jwt" rfl).1 { email := "ops@example.com" } rfl,
   (((identity_tier_check_order {} (fun _ => none)
      (some "jwt")).2.2 rfl rfl).2 "jwt" rfl).2 rfl⟩

/-- C6: when the diagnostics-enabled flag is not the string `"true"`, every
diagnostic route request results in not-found (404) and never in an
unauthorized outcome, whatever the credential and whatever the bypass
flags (both are part of the quantified environment). -/
theorem debug_routes_disabled_not_found (env : WorkerEnv)
    (verify : String → Option Claims) (token : Option String)
    (h : env.DEBUG_ROUTES ≠ some "true") :
    debugPipeline env verify token = .notFound404 ∧
    debugPipeline env verify token ≠ .unauthorized401 := by
  have hb : (env.DEBUG_ROUTES != some "true") = true := bne_iff_ne.mpr h
  refine ⟨?_, ?_⟩ <;> simp [debugPipeline, hb]

theorem debug_routes_disabled_not_found_witness :
    debugPipeline { DEBUG_ROUTES := some "false", DEV_MODE := some "true" }
        (fun _ => some { email := "ops@example.com" }) (some "valid-jwt")
      = .notFound404 :=
  (debug_routes_disabled_not_found
    { DEBUG_ROUTES := some "false", DEV_MODE := some "true" }
    (fun _ => some { email := "ops@example.com" }) (some "valid-jwt")
    (by decide)).1

/-- C7: the Find-only lookup never propagates an error — a failing
process-table query is reported exactly like an empty table, and the default
`GET /debug/logs` path answers status 200 with `no_process` in both cases. -/
theorem find_only_swallows_errors (msg : String)
    (q : Except String (List ProcessRecord)) :
    findExistingMoltbotProcess (.error msg) = none ∧
    debugLogsDefault (.error msg) = .noProcess ∧
    debugLogsDefault (.error msg) = debugLogsDefault (.ok []) ∧
    (debugLogsDefault q).status = 200 := by
  refine ⟨rfl, rfl, rfl, ?_⟩
  cases q with
  | error e => rfl
  | ok t =>
    show (match t.find? activeAgent with
      | some r => LogsResponse.okLogs r.pid
      | none => LogsResponse.noProcess).status = 200
    cases t.find? activeAgent <;> rfl

/-- C3: when the process table's alive-record query returns a matching record
that is `running` with its port reachable, or `starting` with its port
becoming reachable within the timeout, Ensure-running returns that record,
issues no start command, leaves the table unchanged, and hence preserves the
at-most-one-alive-agent-record invariant. -/
theorem ensure_running_spec (t : List ProcessRecord) (portOk : Nat → Bool)
    (timeout freshPid : Nat) (r : ProcessRecord)
    (hfind : t.find? activeAgent = some r)
    (hready : (r.status = .running ∧ portOk 0 = true) ∨
      (r.status = .starting ∧ portUp portOk timeout = true)) :
    (ensureRunning t portOk timeout freshPid).outcome = .ready r ∧
    (ensureRunning t portOk timeout freshPid).startsIssued = 0 ∧
    (ensureRunning t portOk timeout freshPid).table = t ∧
    activeCount (ensureRunning t portOk timeout freshPid).table
      = activeCount t := by
  unfold ensureRunning
  rcases hready with ⟨hs, hp⟩ | ⟨hs, hp⟩
  · simp [hfind, hs, hp]
  · have hrun : (r.status == PStatus.running) = false := by simp [hs]
    simp [hfind, hrun, hp]

theorem ensure_running_spec_witness :
    (ensureRunning [⟨1, agentStartCommand, .running⟩] (fun _ => true) 3
        7).outcome = .ready ⟨1, agentStartCommand, .running⟩ ∧
    (ensureRunning [⟨1, agentStartCommand, .running⟩] (fun _ => true) 3
        7).startsIssued = 0 ∧
    (ensureRunning [⟨1, agentStartCommand, .running⟩] (fun _ => true) 3
        7).table = [⟨1, agentStartCommand, .running⟩] ∧
    activeCount (ensureRunning [⟨1, agentStartCommand, .running⟩]
        (fun _ => true) 3 7).table
      = activeCount [⟨1, agentStartCommand, .running⟩] :=
  ensure_running_spec [⟨1, agentStartCommand, .running⟩] (fun _ => true) 3 7
    ⟨1, agentStartCommand, .running⟩ (by decide) (Or.inl ⟨rfl, rfl⟩)

/-- C5: Restart kills a located matching record (of any status) and has
awaited its termination in the resulting table before any fresh start; with
no matching record it starts fresh without a kill; and under the
at-most-one-alive invariant, two consecutive Restarts never leave two alive
(`running` or `starting`) agent records. -/
theorem restart_spec (t : List ProcessRecord) (p1 p2 : Nat) :
    (∀ r : ProcessRecord, t.find? matchesAgent = some r →
      (restart t p1).killedId = some r.pid ∧
      ((∀ rec ∈ t, rec.pid ≠ p1) →
        ∀ rec ∈ (restart t p1).table, rec.pid = r.pid →
          rec.status = .failed)) ∧
    (t.find? matchesAgent = none →
      (restart t p1).killedId = none ∧
      (restart t p1).startsIssued = 1) ∧
    (activeCount t ≤ 1 →
      activeCount (restart (restart t p1).table p2).table ≤ 1) := by
  refine ⟨?_, ?_, ?_⟩
  · intro r hf
    constructor
    · unfold restart
      cases h2 : (killIn t r.pid).find? activeAgent <;> simp [hf, h2]
    · intro hp rec hrec hpid
      have hrmem : r ∈ t := List.mem_of_find?_eq_some hf
      unfold restart at hrec
      simp only [hf] at hrec
      cases h2 : (killIn t r.pid).find? activeAgent with
      | some r' =>
        simp only [h2] at hrec
        exact killIn_failed t r.pid rec hrec hpid
      | none =>
        simp only [h2] at hrec
        rcases List.mem_append.mp hrec with hl | hr
        · exact killIn_failed t r.pid rec hl hpid
        · have : rec = (⟨p1, agentStartCommand, PStatus.running⟩ : ProcessRecord) := by
            simpa using hr
          rw [this] at hpid
          exact absurd hpid.symm (hp r hrmem)
  · intro hf
    have ha : t.find? activeAgent = none :=
      find?_active_none_of_matches_none t hf
    unfold restart
    simp [hf, ha]
  · intro h
    exact restart_activeCount_le_one _ p2 (restart_activeCount_le_one t p1 h)

theorem restart_spec_witness :
    (restart [⟨1, agentStartCommand, .running⟩] 2).killedId = some 1 ∧
    (restart ([] : List ProcessRecord) 5).killedId = none ∧
    (restart ([] : List ProcessRecord) 5).startsIssued = 1 ∧
    activeCount
        (restart (restart [⟨1, agentStartCommand, .running⟩] 2).table
          3).table ≤ 1 :=
  ⟨((restart_spec [⟨1, agentStartCommand, .running⟩] 2 3).1
      ⟨1, agentStartCommand, .running⟩ (by decide)).1,
   ((restart_spec ([] : List ProcessRecord) 5 0).2.1 rfl).1,
   ((restart_spec ([] : List ProcessRecord) 5 0).2.1 rfl).2,
   (restart_spec [⟨1, agentStartCommand, .running⟩] 2 3).2.2 (by decide)⟩

/-- C10 counterexample: with `ANTHROPIC_API_KEY` configured as the string
`"true"`, the serialized `GET /debug/env` body does contain the actual value
of `ANTHROPIC_API_KEY` (the presence flag itself serializes as `true`), so
the claim's universally quantified containment property fails. -/
theorem debug_env_value_leak_counterexample :
    ({ ANTHROPIC_API_KEY := some "true" } : WorkerEnv).ANTHROPIC_API_KEY
        = some "true" ∧
    occursIn "true"
        (serializeDebugEnv
          (debugEnvBody { ANTHROPIC_API_KEY := some "true" })) = true :=
  ⟨rfl, by decide⟩

/-- C10 (amended): the `GET /debug/env` response exposes the secrets only
through boolean presence flags — replacing the actual secret values by any
other values of like presence leaves the serialized body unchanged, so no
information about a secret beyond its presence (in particular no value that
does not already occur in the body computed without it) can appear. -/
theorem debug_env_presence_only (env : WorkerEnv) (k k' o o' g g' : Option String)
    (hk : presentStr k = presentStr k') (ho : presentStr o = presentStr o')
    (hg : presentStr g = presentStr g') :
    serializeDebugEnv (debugEnvBody
        { env with ANTHROPIC_API_KEY := k, OPENAI_API_KEY := o,
                   MOLTBOT_GATEWAY_TOKEN := g }) =
      serializeDebugEnv (debugEnvBody
        { env with ANTHROPIC_API_KEY := k', OPENAI_API_KEY := o',
                   MOLTBOT_GATEWAY_TOKEN := g' }) := by
  simp [debugEnvBody, serializeDebugEnv, hk, ho, hg]

theorem debug_env_presence_only_witness :
    serializeDebugEnv (debugEnvBody
        { ANTHROPIC_API_KEY := some "sk-secret-key",
          MOLTBOT_GATEWAY_TOKEN := some "token-123" }) =
      serializeDebugEnv (debugEnvBody
        { ANTHROPIC_API_KEY := some "x",
          MOLTBOT_GATEWAY_TOKEN := some "y" }) :=
  debug_env_presence_only {} (some "sk-secret-key") (some "x") none none
    (some "token-123") (some "y") rfl rfl rfl

end AvaAgent
